import Mathlib

/-!
Shallow embedding of the upstream LDM-7 sender (files `mldm_sender.c` and
`up7.c`).  External collaborators (FMTP transport, product-queue, RPC layer,
provisioning helper, upstream manager) are modelled by explicit environment
records holding the outcome of each external call; each embedded function
returns, besides its status, the list of externally visible events it
performed, in order.
-/

namespace LDM

/-- LDM-7 status codes from `ldm7.h` (only those the embedded code uses). -/
inductive Ldm7Status
  | ok | inval | unauth | noent | logic | mcast | pq | system
  deriving DecidableEq, Repr

/-- A product signature (`signaturet`): an opaque content identifier. -/
abbrev signaturet := Nat

/-- A feed classification (`feedtypet`): a bitset; `0` is `NONE`. -/
abbrev feedtypet := Nat

/-- Data-product as seen by the repair path: its signature and feedtype. -/
structure product where
  sig : signaturet
  feed : feedtypet
  deriving DecidableEq, Repr

/-! ## C1: `mls_multicastProduct` (mldm_sender.c) -/

/-- Externally visible operations performed by `mls_multicastProduct`. -/
inductive McastEvent
  | nextIndex (i : Nat)                 -- `fmtpSender_getNextProdIndex`
  | omPut (i off : Nat)                 -- `om_put(offMap, iProd, offset)`
  | pimPut (i : Nat) (sig : signaturet) -- `pim_put(iProd, &info->signature)`
  | fmtpSend (i : Nat) (sig : signaturet) -- `fmtpSender_send(...)`
  deriving DecidableEq, Repr

/-- Outcomes of the external calls made by `mls_multicastProduct`. -/
structure McastEnv where
  nextProdIndex : Nat   -- value returned by `fmtpSender_getNextProdIndex`
  omPutOk : Bool        -- `om_put` returned 0
  pimPutOk : Bool       -- `pim_put` returned 0
  sendOk : Bool         -- `fmtpSender_send` returned 0
  deriving Repr

/-- Shallow embedding of `mls_multicastProduct` (mldm_sender.c:825-874).
Gets the next FMTP product-index, inserts (index, offset) into the offset
map, inserts (index, signature) into the product-index map, and then hands
the product to `fmtpSender_send`; each step is skipped when an earlier one
fails.  Returns the status together with the trace of operations. -/
def mls_multicastProduct (env : McastEnv) (sig : signaturet) (offset : Nat) :
    Ldm7Status × List McastEvent :=
  let iProd := env.nextProdIndex
  let tr1 := [McastEvent.nextIndex iProd, McastEvent.omPut iProd offset]
  if !env.omPutOk then
    (Ldm7Status.system, tr1)
  else
    let tr2 := tr1 ++ [McastEvent.pimPut iProd sig]
    if !env.pimPutOk then
      (Ldm7Status.system, tr2)
    else
      let tr3 := tr2 ++ [McastEvent.fmtpSend iProd sig]
      if !env.sendOk then
        (Ldm7Status.mcast, tr3)
      else
        (Ldm7Status.ok, tr3)

/-! ## Repair RPC server (up7.c): `request_product`, `request_backlog` -/

/-- One-way notifications and other externally visible actions of the
upstream LDM-7 repair path (up7.c). -/
inductive Up7Event
  | missedProduct (i : Nat) (p : product)  -- `deliver_missed_product_7`
  | noSuchProduct (i : Nat)                -- `no_such_product_7`
  | backlogProduct (p : product)           -- `deliver_backlog_product_7`
  | logInfoEndOfQueue                      -- the end-of-backlog info diagnostic
  | provision                              -- `up7_createVirtCirc`/`oess_provision`
  | ummSubscribe (feed : feedtypet)        -- `umm_subscribe(reducedFeed, &rep)`
  | pimOpen (feed : feedtypet)             -- `up7_openProdIndexMap(request->feed)`
  | ummUnsubscribe (feed : feedtypet) (addr : Nat) -- `umm_unsubscribe`
  | destroyVirtCirc                        -- `up7_destroyVirtCirc`/`oess_remove`
  deriving DecidableEq, Repr

/-- Outcomes of the external calls made by the `request_product` path: the
product-index map reader (`pim_get`), the product-queue lookup by signature
(`pq_processProduct`), and the RPC status of each one-way send
(`clnt_stat(clnt) == RPC_TIMEDOUT`, the expected status of an asynchronous
send). -/
structure Up7SendEnv where
  pim : Nat → Option signaturet       -- `pim_get`: found / `LDM7_NOENT`
  pqBySig : signaturet → Option product -- `pq_processProduct`: found / `PQ_NOTFOUND`
  clntOkMissed : Bool                 -- send of `missed_product` timed out as expected
  clntOkNack : Bool                   -- send of `no_such_product` timed out as expected

/-- Shallow embedding of `up7_deliverProduct` (up7.c:611-646): always emits
the one-way `missed_product` notification; succeeds iff the client status
is the expected `RPC_TIMEDOUT`. -/
def up7_deliverProduct (env : Up7SendEnv) (iProd : Nat) (p : product) :
    Ldm7Status × List Up7Event :=
  ((if env.clntOkMissed then Ldm7Status.ok else Ldm7Status.system),
   [Up7Event.missedProduct iProd p])

/-- Shallow embedding of `up7_sendProduct` (up7.c:657-685): look the index
up in the product-index map; on `LDM7_NOENT` stop; otherwise look the
product up in the product-queue by signature; on `PQ_NOTFOUND` return
`LDM7_NOENT`; otherwise deliver it via `up7_deliverProduct`. -/
def up7_sendProduct (env : Up7SendEnv) (iProd : Nat) :
    Ldm7Status × List Up7Event :=
  match env.pim iProd with
  | none => (Ldm7Status.noent, [])
  | some sig =>
    match env.pqBySig sig with
    | none => (Ldm7Status.noent, [])
    | some p => up7_deliverProduct env iProd p

/-- Shallow embedding of `up7_findAndSendProduct` (up7.c:697-720): on
`LDM7_NOENT` from `up7_sendProduct`, emit a one-way `no_such_product`
notification whose success is again the expected timeout status; return
`true` iff the final status is 0. -/
def up7_findAndSendProduct (env : Up7SendEnv) (iProd : Nat) :
    Bool × List Up7Event :=
  let r := up7_sendProduct env iProd
  if r.1 = Ldm7Status.noent then
    (env.clntOkNack, r.2 ++ [Up7Event.noSuchProduct iProd])
  else
    (r.1 = Ldm7Status.ok, r.2)

/-- Feed filtering done by `pq_sequence` under the product-class built by
`up7_sendUpToSignature`: the class's feedtype is the subscription's
(reduced) feedtype and a product matches when its feedtype intersects it. -/
def prodMatches (granted : feedtypet) (p : product) : Bool :=
  (granted &&& p.feed) != 0

/-- Statuses returned through `pq_sequence` by `up7_sendIfNotSignature`. -/
inductive PqStatus
  | ok | eexist | eio
  deriving DecidableEq, Repr

/-- Shallow embedding of `up7_sendIfNotSignature` (up7.c:870-908): if the
product's signature equals the stop signature, return `EEXIST` without
sending; otherwise emit a one-way `backlog_product` notification, `EIO` if
the client status is not the expected timeout. -/
def up7_sendIfNotSignature (clntOk : Bool) (before : signaturet)
    (p : product) : PqStatus × List Up7Event :=
  if p.sig = before then
    (PqStatus.eexist, [])
  else
    ((if clntOk then PqStatus.ok else PqStatus.eio),
     [Up7Event.backlogProduct p])

/-- Shallow embedding of `up7_sendUpToSignature` (up7.c:921-955) combined
with the contract of `pq_sequence`: the product-queue from the cursor
position is the list `queue`; `pq_sequence` skips products not matching
the class (feedtype `feedtype`) and applies `up7_sendIfNotSignature` to
each matching one; the loop stops with status 0 on `EEXIST`, with
`LDM7_NOENT` (after logging an info diagnostic) on `PQUEUE_END`, and with
`LDM7_SYSTEM` on any other nonzero status. -/
def up7_sendUpToSignature (feedtype : feedtypet) (clntOk : Bool)
    (before : signaturet) : List product → Ldm7Status × List Up7Event
  | [] => (Ldm7Status.noent, [Up7Event.logInfoEndOfQueue])
  | p :: rest =>
    if prodMatches feedtype p then
      match up7_sendIfNotSignature clntOk before p with
      | (PqStatus.eexist, evs) => (Ldm7Status.ok, evs)
      | (PqStatus.eio, evs) => (Ldm7Status.system, evs)
      | (PqStatus.ok, evs) =>
        let r := up7_sendUpToSignature feedtype clntOk before rest
        (r.1, evs ++ r.2)
    else
      up7_sendUpToSignature feedtype clntOk before rest

/-- Shallow embedding of `up7_sendBacklog` (up7.c:968-976) after the cursor
has been positioned (`up7_setProductQueueCursor`): fails only when
`up7_sendUpToSignature` reports `LDM7_SYSTEM`. -/
def up7_sendBacklog (feedtype : feedtypet) (clntOk : Bool)
    (before : signaturet) (queue : List product) : Bool × List Up7Event :=
  let r := up7_sendUpToSignature feedtype clntOk before queue
  (r.1 != Ldm7Status.system, r.2)

/-- Per-session state used by the RPC dispatch entries of up7.c: whether
the client-side transport `clnt` exists and the module's `isDone` flag. -/
structure Svc7State where
  hasClient : Bool
  isDone : Bool
  deriving DecidableEq, Repr

/-- Shallow embedding of `request_product_7_svc` (up7.c:1151-1170): with no
client-side transport, set `isDone` and emit nothing; otherwise run
`up7_findAndSendProduct`, destroying the client and setting `isDone` on
failure.  Never replies. -/
def request_product_7_svc (env : Up7SendEnv) (st : Svc7State) (iProd : Nat) :
    Svc7State × List Up7Event :=
  if !st.hasClient then
    ({ st with isDone := true }, [])
  else
    let r := up7_findAndSendProduct env iProd
    if r.1 then (st, r.2)
    else ({ hasClient := false, isDone := true }, r.2)

/-- Shallow embedding of `request_backlog_7_svc` (up7.c:1181-1200): with no
client-side transport, set `isDone` and emit nothing; otherwise run
`up7_sendBacklog`, destroying the client and setting `isDone` on failure.
Never replies. -/
def request_backlog_7_svc (feedtype : feedtypet) (clntOk : Bool)
    (before : signaturet) (queue : List product) (st : Svc7State) :
    Svc7State × List Up7Event :=
  if !st.hasClient then
    ({ st with isDone := true }, [])
  else
    let r := up7_sendBacklog feedtype clntOk before queue
    if r.1 then (st, r.2)
    else ({ hasClient := false, isDone := true }, r.2)

/-! ## OESS provisioning helpers (up7.c:92-223) -/

/-- One end of an AL2S virtual circuit (`VcEndPoint`). -/
structure VcEndPoint where
  switchId : String
  portId : String
  vlanId : Nat
  deriving DecidableEq, Repr

/-- Child processes spawned by the OESS submodule. -/
inductive OessEvent
  | spawnProvision (wrkGrp sw1 port1 vlan1 sw2 port2 vlan2 : String)
  | spawnRemove (wrkGrp circuitId : String)
  deriving DecidableEq, Repr

/-- Outcomes of the external `ChildCmd` calls: whether `childCmd_execvp`
succeeded, the line read by `childCmd_getline` (`none` for `nbytes <= 0`),
whether `childCmd_reap` succeeded, and the child's exit status. -/
structure ChildCmdEnv where
  execOk : Bool
  outputLine : Option String
  reapOk : Bool
  exitStatus : Nat
  deriving Repr

/-- The test `strncmp(s, "dummy", 5) == 0`: the first five characters of
`s` are exactly "dummy" (a shorter string compares unequal through its
terminating NUL, as in C). -/
def startsWithDummy (s : String) : Bool :=
  s.data.take 5 == "dummy".data

/-- Whether an optional end-point's switch or port id begins with "dummy"
(the guard of `oess_provision`; `none` stands for a NULL pointer, which the
short-circuit `end1 && ...` makes false). -/
def endIsDummy : Option VcEndPoint → Bool
  | none => false
  | some e => startsWithDummy e.switchId || startsWithDummy e.portId

/-- Strips the trailing newline the way `oess_provision` does
(`if (line[nbytes-1] == '\n') line[nbytes-1] = 0`). -/
def chopNewline (s : String) : String :=
  if s.endsWith "\n" then s.dropRight 1 else s

/-- Shallow embedding of `oess_provision` (up7.c:92-185).  Returns the
status, the circuit id written to `*circuitId` (when set), and the spawned
child processes.  A "dummy" switch or port id of either end-point
synthesizes the id "dummy_circuitId" without spawning anything; NULL
arguments give `LDM7_INVAL`; otherwise `provision.py` is spawned and its
first output line (newline stripped) is the circuit id, with `LDM7_SYSTEM`
on any spawn, read, reap, or exit-status failure. -/
def oess_provision (env : ChildCmdEnv) (wrkGrpName desc : Option String)
    (end1 end2 : Option VcEndPoint) :
    Ldm7Status × Option String × List OessEvent :=
  if endIsDummy end1 || endIsDummy end2 then
    (Ldm7Status.ok, some "dummy_circuitId", [])
  else
    match wrkGrpName, desc, end1, end2 with
    | some wg, some _, some e1, some e2 =>
      let evs := [OessEvent.spawnProvision wg
          e1.switchId e1.portId (toString e1.vlanId)
          e2.switchId e2.portId (toString e2.vlanId)]
      if !env.execOk then
        (Ldm7Status.system, none, evs)
      else if !env.reapOk then
        (Ldm7Status.system, none, evs)
      else if env.exitStatus != 0 then
        (Ldm7Status.system, none, evs)
      else
        match env.outputLine with
        | none => (Ldm7Status.system, none, evs)
        | some line => (Ldm7Status.ok, some (chopNewline line), evs)
    | _, _, _, _ => (Ldm7Status.inval, none, [])

/-- Shallow embedding of `oess_remove` (up7.c:193-223): a circuit id that
begins with "dummy" suppresses the `remove.py` child; otherwise it is
spawned. -/
def oess_remove (wrkGrpName circuitId : String) : List OessEvent :=
  if startsWithDummy circuitId then []
  else [OessEvent.spawnRemove wrkGrpName circuitId]

/-! ## Subscription handler: `up7_subscribe` (up7.c:525-597) -/

/-- Per-process subscription state of the up7 module (the statics
`feedtype`, `downFmtpAddr`, `circuitId`, `pimIsOpen`).  `feedtype = 0` is
`NONE` and `downFmtpAddr = 0` is `INADDR_ANY`. -/
structure Up7State where
  feedtype : feedtypet
  downFmtpAddr : Nat
  circuitId : Option String
  pimIsOpen : Bool
  deriving DecidableEq, Repr

/-- The initial up7 module state. -/
def up7_initialState : Up7State :=
  { feedtype := 0, downFmtpAddr := 0, circuitId := none, pimIsOpen := false }

/-- Outcomes of the external calls made by `up7_subscribe`: the feed
reduction (`up7_reduceToAllowed`, via the configuration file), the virtual
circuit provisioning (`up7_createVirtCirc`), the upstream-manager
subscription (`umm_subscribe`, which reserves the FMTP address), the
address in the manager's reply, and the product-index map open. -/
structure Up7SubEnv where
  reducedFeed : feedtypet      -- result of `up7_reduceToAllowed`; 0 = NONE
  circuitIdStr : String        -- circuit id on provisioning success
  provisionOk : Bool           -- `up7_createVirtCirc` returned 0
  ummSubscribeStatus : Ldm7Status -- `umm_subscribe`: ok, noent, or other
  fmtpAddr : Nat               -- `cidrAddr_getAddr(&rep...fmtpAddr)`
  pimOpenOk : Bool             -- `up7_openProdIndexMap` returned 0
  deriving Repr

/-- Shallow embedding of `up7_subscribe` (up7.c:525-597).  Returns
(`replySet`, reply status when set, new module state, events).  An empty
reduced feed replies `LDM7_UNAUTH` immediately; then the virtual circuit is
provisioned, the upstream manager is asked to subscribe (reserving the
FMTP address), and the product-index map is opened for reading; on a
manager `LDM7_NOENT` the reply is `LDM7_NOENT`, on an index-map failure
the address is released via `umm_unsubscribe`, and in every failure path
after provisioning the virtual circuit is destroyed. -/
def up7_subscribe (env : Up7SubEnv) (st : Up7State) (requestFeed : feedtypet) :
    Bool × Option Ldm7Status × Up7State × List Up7Event :=
  if env.reducedFeed = 0 then
    (true, some Ldm7Status.unauth, st, [])
  else
    let evs1 := [Up7Event.provision]
    if !env.provisionOk then
      (false, none, st, evs1)
    else
      let st1 := { st with circuitId := some env.circuitIdStr }
      let evs2 := evs1 ++ [Up7Event.ummSubscribe env.reducedFeed]
      match env.ummSubscribeStatus with
      | Ldm7Status.ok =>
        let addr := env.fmtpAddr
        let evs3 := evs2 ++ [Up7Event.pimOpen requestFeed]
        if env.pimOpenOk then
          (true, some Ldm7Status.ok,
           { st1 with feedtype := env.reducedFeed, downFmtpAddr := addr,
                      pimIsOpen := true }, evs3)
        else
          (false, none, { st1 with circuitId := none },
           evs3 ++ [Up7Event.ummUnsubscribe env.reducedFeed addr,
                    Up7Event.destroyVirtCirc])
      | Ldm7Status.noent =>
        (true, some Ldm7Status.noent, { st1 with circuitId := none },
         evs2 ++ [Up7Event.destroyVirtCirc])
      | _ =>
        (false, none, { st1 with circuitId := none },
         evs2 ++ [Up7Event.destroyVirtCirc])

/-! ## Sender child: `mls_execute` and `main` (mldm_sender.c) -/

/-- Externally visible actions of `mls_execute`. -/
inductive MlsEvent
  | printLine (s : String)   -- a line written to standard output
  | startMulticasting        -- entry into the dispatch loop
  deriving DecidableEq, Repr

/-- Outcomes of the steps of `mls_execute`: `startAuthorization` (binds the
command server), `mls_init` (binds the FMTP TCP server and opens queue and
index map), the two bound port numbers, the `printf`, the dispatch loop and
`mls_destroy`. -/
structure MlsExecEnv where
  startAuthStatus : Ldm7Status  -- `startAuthorization`
  initStatus : Ldm7Status       -- `mls_init`
  fmtpServerPort : Nat          -- `mcastInfo.server.port` after `mls_init`
  mldmSrvrPort : Nat            -- `mldmSrvr_getPort(mldmCmdSrvr)`
  printfOk : Bool               -- `printf(...) >= 0`
  multicastStatus : Ldm7Status  -- `mls_startMulticasting`
  destroyStatus : Ldm7Status    -- `mls_destroy`
  deriving Repr

/-- The handshake line `printf("%hu %hu\n", ...)`: both ports are printed
as decimal unsigned shorts (`%hu` truncates to 16 bits). -/
def portLine (fmtpPort cmdPort : Nat) : String :=
  toString (fmtpPort % 65536) ++ " " ++ toString (cmdPort % 65536) ++ "\n"

/-- Shallow embedding of `mls_execute` (mldm_sender.c:1117-1196): start
authorization (command server), initialize the sender (FMTP TCP server),
print the port-handshake line, then run the dispatch loop
(`mls_startMulticasting`) and destroy the sender; each step is skipped
when an earlier one fails. -/
def mls_execute (env : MlsExecEnv) : Ldm7Status × List MlsEvent :=
  if env.startAuthStatus != Ldm7Status.ok then
    (env.startAuthStatus, [])
  else if env.initStatus != Ldm7Status.ok then
    (env.initStatus, [])
  else if !env.printfOk then
    (Ldm7Status.system, [])
  else
    let evs := [MlsEvent.printLine (portLine env.fmtpServerPort env.mldmSrvrPort),
                MlsEvent.startMulticasting]
    if env.multicastStatus = Ldm7Status.ok then
      (env.destroyStatus, evs)
    else
      (env.multicastStatus, evs)

/-- Shallow embedding of the exit-code computation of `main`
(mldm_sender.c:1209-1260): a command-line decoding failure (1 invalid, 2
system) is returned directly; otherwise the `mls_execute` status is mapped
by the `switch`: `LDM7_INVAL` to 1, `LDM7_PQ` to 3, `LDM7_MCAST` to 4, any
other nonzero status to 2, success to 0. -/
def mldm_sender_main (cmdLineStatus : Nat) (execStatus : Ldm7Status) : Nat :=
  if cmdLineStatus != 0 then
    cmdLineStatus
  else
    match execStatus with
    | Ldm7Status.ok => 0
    | Ldm7Status.inval => 1
    | Ldm7Status.pq => 3
    | Ldm7Status.mcast => 4
    | _ => 2

/-! ## C10: `up7_setCursorFromTimeOffset` (up7.c:814-825) -/

/-- Shallow embedding of `up7_setCursorFromTimeOffset`.  `now` is the
seconds field of the current timestamp (`set_timestamp`); the function
returns the seconds value the product-queue cursor is set to by `pq_cset`:
`ts.tv_sec = (offset < ts.tv_sec) ? (ts.tv_sec - offset) : 0`. -/
def up7_setCursorFromTimeOffset (offset now : Nat) : Nat :=
  if offset < now then now - offset else 0

/-! ## Theorems -/

/-- C1: in `mls_multicastProduct` the operations occur in the order
next-index, offset-map insert, product-index-map insert, send — whatever
the outcomes of the external calls, the trace is a run of that order cut
short at the first failure — and in particular a send only ever occurs in
the full trace, where the product-index-map insertion precedes it. -/
theorem mls_multicastProduct_order (env : McastEnv) (sig : signaturet)
    (offset : Nat) :
    ((mls_multicastProduct env sig offset).2 =
        [McastEvent.nextIndex env.nextProdIndex,
         McastEvent.omPut env.nextProdIndex offset] ∨
     (mls_multicastProduct env sig offset).2 =
        [McastEvent.nextIndex env.nextProdIndex,
         McastEvent.omPut env.nextProdIndex offset,
         McastEvent.pimPut env.nextProdIndex sig] ∨
     (mls_multicastProduct env sig offset).2 =
        [McastEvent.nextIndex env.nextProdIndex,
         McastEvent.omPut env.nextProdIndex offset,
         McastEvent.pimPut env.nextProdIndex sig,
         McastEvent.fmtpSend env.nextProdIndex sig]) ∧
    (McastEvent.fmtpSend env.nextProdIndex sig ∈
        (mls_multicastProduct env sig offset).2 →
     (mls_multicastProduct env sig offset).2 =
        [McastEvent.nextIndex env.nextProdIndex,
         McastEvent.omPut env.nextProdIndex offset,
         McastEvent.pimPut env.nextProdIndex sig,
         McastEvent.fmtpSend env.nextProdIndex sig]) := by
  unfold mls_multicastProduct
  cases h1 : env.omPutOk <;> cases h2 : env.pimPutOk <;>
    cases h3 : env.sendOk <;> simp

/-- Witness for C1: a concrete successful run exhibits the full trace. -/
theorem mls_multicastProduct_order_witness :
    (mls_multicastProduct ⟨7, true, true, true⟩ 5 9).2 =
      [McastEvent.nextIndex 7, McastEvent.omPut 7 9, McastEvent.pimPut 7 5,
       McastEvent.fmtpSend 7 5] :=
  (mls_multicastProduct_order ⟨7, true, true, true⟩ 5 9).2 (by decide)

/-- C2: when the one-way sends succeed with the expected timeout status,
`up7_findAndSendProduct` emits exactly one `missed_product` carrying the
product when the product-index map maps the index to a signature held in
the store, and exactly one `no_such_product` (and no `missed_product`)
when the index is unknown to the map or the product is gone from the
store; in every such case the session survives (result `true`). -/
theorem up7_findAndSendProduct_spec (env : Up7SendEnv) (iProd : Nat)
    (hm : env.clntOkMissed = true) (hn : env.clntOkNack = true) :
    (∀ sig p, env.pim iProd = some sig → env.pqBySig sig = some p →
       up7_findAndSendProduct env iProd =
         (true, [Up7Event.missedProduct iProd p])) ∧
    (env.pim iProd = none →
       up7_findAndSendProduct env iProd =
         (true, [Up7Event.noSuchProduct iProd])) ∧
    (∀ sig, env.pim iProd = some sig → env.pqBySig sig = none →
       up7_findAndSendProduct env iProd =
         (true, [Up7Event.noSuchProduct iProd])) := by
  refine ⟨?_, ?_, ?_⟩
  · intro sig p h1 h2
    simp [up7_findAndSendProduct, up7_sendProduct, up7_deliverProduct,
      h1, h2, hm]
  · intro h1
    simp [up7_findAndSendProduct, up7_sendProduct, h1, hn]
  · intro sig h1 h2
    simp [up7_findAndSendProduct, up7_sendProduct, h1, h2, hn]

/-- Witness for C2: on a concrete map and store, index 0 yields exactly one
missed-product notification and index 1 exactly one no-such-product. -/
theorem up7_findAndSendProduct_spec_witness :
    up7_findAndSendProduct
        ⟨fun n => if n = 0 then some 5 else none,
         fun s => if s = 5 then some ⟨5, 1⟩ else none, true, true⟩ 0 =
      (true, [Up7Event.missedProduct 0 ⟨5, 1⟩]) ∧
    up7_findAndSendProduct
        ⟨fun n => if n = 0 then some 5 else none,
         fun s => if s = 5 then some ⟨5, 1⟩ else none, true, true⟩ 1 =
      (true, [Up7Event.noSuchProduct 1]) :=
  ⟨(up7_findAndSendProduct_spec _ 0 rfl rfl).1 5 ⟨5, 1⟩ rfl rfl,
   (up7_findAndSendProduct_spec _ 1 rfl rfl).2.1 rfl⟩

/-- C3: with the one-way sends succeeding, the backlog run emits one
`backlog_product` for each product matching the granted feed, in store
order from the cursor position, up to but not including the first matching
product whose signature is `before`; if the end of the store is reached
without meeting `before`, the info diagnostic is logged and the status is
`LDM7_NOENT`, not `LDM7_SYSTEM`, so `up7_sendBacklog` succeeds and the
session is kept (the service routine leaves the session state intact). -/
theorem up7_sendBacklog_spec (feedtype : feedtypet) (before : signaturet)
    (queue : List product) :
    (up7_sendUpToSignature feedtype true before queue).2 =
      (((queue.filter (prodMatches feedtype)).takeWhile
          (fun p => p.sig != before)).map Up7Event.backlogProduct ++
        (if (queue.filter (prodMatches feedtype)).any
              (fun p => p.sig == before)
         then [] else [Up7Event.logInfoEndOfQueue])) ∧
    (up7_sendUpToSignature feedtype true before queue).1 =
      (if (queue.filter (prodMatches feedtype)).any
            (fun p => p.sig == before)
       then Ldm7Status.ok else Ldm7Status.noent) ∧
    (up7_sendBacklog feedtype true before queue).1 = true ∧
    request_backlog_7_svc feedtype true before queue ⟨true, false⟩ =
      (⟨true, false⟩, (up7_sendUpToSignature feedtype true before queue).2) := by
  have main : (up7_sendUpToSignature feedtype true before queue).2 =
      (((queue.filter (prodMatches feedtype)).takeWhile
          (fun p => p.sig != before)).map Up7Event.backlogProduct ++
        (if (queue.filter (prodMatches feedtype)).any
              (fun p => p.sig == before)
         then [] else [Up7Event.logInfoEndOfQueue])) ∧
      (up7_sendUpToSignature feedtype true before queue).1 =
      (if (queue.filter (prodMatches feedtype)).any
            (fun p => p.sig == before)
       then Ldm7Status.ok else Ldm7Status.noent) := by
    induction queue with
    | nil => simp [up7_sendUpToSignature]
    | cons p rest ih =>
      by_cases hm : prodMatches feedtype p
      · by_cases hs : p.sig = before
        · simp [up7_sendUpToSignature, up7_sendIfNotSignature, hm, hs]
        · simp [up7_sendUpToSignature, up7_sendIfNotSignature, hm, hs,
            ih.1, ih.2]
      · simp [up7_sendUpToSignature, hm, ih.1, ih.2]
  have hnotsys : (up7_sendUpToSignature feedtype true before queue).1 ≠
      Ldm7Status.system := by
    rw [main.2]
    by_cases h : (queue.filter (prodMatches feedtype)).any
        (fun p => p.sig == before) <;> simp [h]
  have hb : (up7_sendBacklog feedtype true before queue).1 = true := by
    simp [up7_sendBacklog, hnotsys]
  refine ⟨main.1, main.2, hb, ?_⟩
  simp [request_backlog_7_svc, up7_sendBacklog, hnotsys]

/-- C4: a provisioning request in which a switch or port id of either
end-point begins with "dummy" spawns no helper, returns status 0 with the
circuit id exactly "dummy_circuitId", and `oess_remove` on that circuit id
never spawns `remove.py`. -/
theorem oess_provision_dummy_spec (env : ChildCmdEnv)
    (wrkGrpName desc : Option String) (end1 end2 : Option VcEndPoint)
    (h : (endIsDummy end1 || endIsDummy end2) = true) :
    oess_provision env wrkGrpName desc end1 end2 =
      (Ldm7Status.ok, some "dummy_circuitId", []) ∧
    (∀ wg : String, oess_remove wg "dummy_circuitId" = []) := by
  constructor
  · simp [oess_provision, h]
  · intro wg
    have hd : startsWithDummy "dummy_circuitId" = true := by decide
    simp [oess_remove, hd]

/-- Witness for C4: a concrete request with a "dummy"-prefixed switch id. -/
theorem oess_provision_dummy_spec_witness :
    oess_provision ⟨true, none, true, 0⟩ (some "wg") (some "desc")
        (some ⟨"dummySwitch", "port1", 1⟩) (some ⟨"sw2", "port2", 2⟩) =
      (Ldm7Status.ok, some "dummy_circuitId", []) ∧
    oess_remove "wg" "dummy_circuitId" = [] :=
  ⟨(oess_provision_dummy_spec ⟨true, none, true, 0⟩ (some "wg") (some "desc")
      (some ⟨"dummySwitch", "port1", 1⟩) (some ⟨"sw2", "port2", 2⟩)
      (by decide)).1,
   (oess_provision_dummy_spec ⟨true, none, true, 0⟩ (some "wg") (some "desc")
      (some ⟨"dummySwitch", "port1", 1⟩) (some ⟨"sw2", "port2", 2⟩)
      (by decide)).2 "wg"⟩

/-- C5: a subscription request whose feed reduces to `NONE` replies
`LDM7_UNAUTH` and performs no external action at all: no virtual-circuit
provisioning, no upstream-manager subscription (sender lookup and address
reservation), and no product-index-map open; the module state is
untouched. -/
theorem up7_subscribe_unauth_spec (env : Up7SubEnv) (st : Up7State)
    (requestFeed : feedtypet) (h : env.reducedFeed = 0) :
    up7_subscribe env st requestFeed =
      (true, some Ldm7Status.unauth, st, []) := by
  simp [up7_subscribe, h]

/-- Witness for C5: a concrete request whose reduced feed is empty. -/
theorem up7_subscribe_unauth_spec_witness :
    up7_subscribe ⟨0, "c1", true, Ldm7Status.ok, 9, true⟩ up7_initialState 6 =
      (true, some Ldm7Status.unauth, up7_initialState, []) :=
  up7_subscribe_unauth_spec ⟨0, "c1", true, Ldm7Status.ok, 9, true⟩
    up7_initialState 6 rfl

/-- C6: when provisioning succeeded and the subscription then fails — at
the upstream-manager subscription (sender lookup / address reservation) or
at the index-map open — the completed steps are undone in reverse order:
when an address was reserved it is released by `umm_unsubscribe` before the
virtual circuit is destroyed, and the module state is left exactly as it
was before the request. -/
theorem up7_subscribe_undo_spec (env : Up7SubEnv) (st : Up7State)
    (requestFeed : feedtypet) (h0 : st.circuitId = none)
    (h1 : env.reducedFeed ≠ 0) (h2 : env.provisionOk = true) :
    (env.ummSubscribeStatus ≠ Ldm7Status.ok →
       (up7_subscribe env st requestFeed).2.2.1 = st ∧
       (up7_subscribe env st requestFeed).2.2.2 =
         [Up7Event.provision, Up7Event.ummSubscribe env.reducedFeed,
          Up7Event.destroyVirtCirc]) ∧
    (env.ummSubscribeStatus = Ldm7Status.ok → env.pimOpenOk = false →
       (up7_subscribe env st requestFeed).2.2.1 = st ∧
       (up7_subscribe env st requestFeed).2.2.2 =
         [Up7Event.provision, Up7Event.ummSubscribe env.reducedFeed,
          Up7Event.pimOpen requestFeed,
          Up7Event.ummUnsubscribe env.reducedFeed env.fmtpAddr,
          Up7Event.destroyVirtCirc]) := by
  obtain ⟨ft, ad, ci, pi⟩ := st
  simp only [Up7State.circuitId] at h0
  subst h0
  constructor
  · intro hu
    cases hs : env.ummSubscribeStatus <;>
      simp_all [up7_subscribe, h1, h2]
  · intro hs hp
    simp [up7_subscribe, h1, h2, hs, hp]

/-- Witness for C6: concrete failing subscriptions, one failing at the
manager subscription and one at the index-map open, both restoring the
initial state and undoing in reverse order. -/
theorem up7_subscribe_undo_spec_witness :
    ((up7_subscribe ⟨3, "c1", true, Ldm7Status.noent, 9, true⟩
        up7_initialState 3).2.2.1 = up7_initialState ∧
     (up7_subscribe ⟨3, "c1", true, Ldm7Status.noent, 9, true⟩
        up7_initialState 3).2.2.2 =
       [Up7Event.provision, Up7Event.ummSubscribe 3,
        Up7Event.destroyVirtCirc]) ∧
    ((up7_subscribe ⟨3, "c1", true, Ldm7Status.ok, 9, false⟩
        up7_initialState 3).2.2.1 = up7_initialState ∧
     (up7_subscribe ⟨3, "c1", true, Ldm7Status.ok, 9, false⟩
        up7_initialState 3).2.2.2 =
       [Up7Event.provision, Up7Event.ummSubscribe 3, Up7Event.pimOpen 3,
        Up7Event.ummUnsubscribe 3 9, Up7Event.destroyVirtCirc]) :=
  ⟨(up7_subscribe_undo_spec ⟨3, "c1", true, Ldm7Status.noent, 9, true⟩
      up7_initialState 3 rfl (by decide) rfl).1 (by decide),
   (up7_subscribe_undo_spec ⟨3, "c1", true, Ldm7Status.ok, 9, false⟩
      up7_initialState 3 rfl (by decide) rfl).2 rfl rfl⟩

/-- C7: `mls_execute` emits nothing — no output line and no dispatch loop —
when either the command-server startup or the sender initialization fails;
when both succeed (both servers bound) it writes exactly one line, the
space-separated decimal u16 port pair terminated by a newline, and only
then enters the dispatch loop. -/
theorem mls_execute_handshake_spec (env : MlsExecEnv) :
    (env.startAuthStatus ≠ Ldm7Status.ok ∨ env.initStatus ≠ Ldm7Status.ok →
       (mls_execute env).2 = []) ∧
    (env.startAuthStatus = Ldm7Status.ok → env.initStatus = Ldm7Status.ok →
     env.printfOk = true →
       (mls_execute env).2 =
         [MlsEvent.printLine (portLine env.fmtpServerPort env.mldmSrvrPort),
          MlsEvent.startMulticasting]) ∧
    (∀ p1 p2 : Nat, ∃ a b : Nat, a < 65536 ∧ b < 65536 ∧
       portLine p1 p2 = toString a ++ " " ++ toString b ++ "\n") := by
  refine ⟨?_, ?_, ?_⟩
  · intro h
    rcases h with h | h <;> simp [mls_execute, h]
    cases hs : env.startAuthStatus <;> simp_all
  · intro h1 h2 h3
    simp [mls_execute, h1, h2, h3]
    split <;> rfl
  · intro p1 p2
    exact ⟨p1 % 65536, p2 % 65536, Nat.mod_lt _ (by norm_num),
      Nat.mod_lt _ (by norm_num), rfl⟩

/-- Witness for C7: a failed initialization prints nothing; a successful
one prints exactly the port line and then starts multicasting. -/
theorem mls_execute_handshake_spec_witness :
    (mls_execute ⟨Ldm7Status.system, Ldm7Status.ok, 1, 2, true,
        Ldm7Status.ok, Ldm7Status.ok⟩).2 = [] ∧
    (mls_execute ⟨Ldm7Status.ok, Ldm7Status.ok, 7000, 8000, true,
        Ldm7Status.ok, Ldm7Status.ok⟩).2 =
      [MlsEvent.printLine (portLine 7000 8000), MlsEvent.startMulticasting] :=
  ⟨(mls_execute_handshake_spec ⟨Ldm7Status.system, Ldm7Status.ok, 1, 2, true,
      Ldm7Status.ok, Ldm7Status.ok⟩).1 (Or.inl (by decide)),
   (mls_execute_handshake_spec ⟨Ldm7Status.ok, Ldm7Status.ok, 7000, 8000, true,
      Ldm7Status.ok, Ldm7Status.ok⟩).2.1 rfl rfl rfl⟩

/-- C8: the sender child's exit code is 0 on success, 1 for a bad command
line or an invalid argument, 3 for a product-queue (store) error, 4 for a
multicast-layer error, and 2 for any other error (including a system
failure during command-line decoding). -/
theorem mldm_sender_main_exit_codes (e : Ldm7Status) :
    mldm_sender_main 0 Ldm7Status.ok = 0 ∧
    mldm_sender_main 1 e = 1 ∧
    mldm_sender_main 2 e = 2 ∧
    mldm_sender_main 0 Ldm7Status.inval = 1 ∧
    mldm_sender_main 0 Ldm7Status.pq = 3 ∧
    mldm_sender_main 0 Ldm7Status.mcast = 4 ∧
    (e ≠ Ldm7Status.ok → e ≠ Ldm7Status.inval → e ≠ Ldm7Status.pq →
     e ≠ Ldm7Status.mcast → mldm_sender_main 0 e = 2) := by
  refine ⟨rfl, rfl, rfl, rfl, rfl, rfl, ?_⟩
  intro h1 h2 h3 h4
  cases e <;> simp_all [mldm_sender_main]

/-- Witness for C8: the system-error status exits with code 2. -/
theorem mldm_sender_main_exit_codes_witness :
    mldm_sender_main 0 Ldm7Status.system = 2 :=
  (mldm_sender_main_exit_codes Ldm7Status.system).2.2.2.2.2.2
    (by decide) (by decide) (by decide) (by decide)

/-- C9: a `request_product` or `request_backlog` arriving on a session with
no client-side transport emits no notification at all and marks the
session done (so it transitions to closed). -/
theorem unsubscribed_request_spec (env : Up7SendEnv) (iProd : Nat)
    (feedtype : feedtypet) (clntOk : Bool) (before : signaturet)
    (queue : List product) (st : Svc7State) (h : st.hasClient = false) :
    request_product_7_svc env st iProd = ({ st with isDone := true }, []) ∧
    request_backlog_7_svc feedtype clntOk before queue st =
      ({ st with isDone := true }, []) := by
  constructor <;> simp [request_product_7_svc, request_backlog_7_svc, h]

/-- Witness for C9: a concrete unsubscribed session. -/
theorem unsubscribed_request_spec_witness :
    request_product_7_svc ⟨fun _ => none, fun _ => none, true, true⟩
        ⟨false, false⟩ 4 = (⟨false, true⟩, []) ∧
    request_backlog_7_svc 1 true 2 [] ⟨false, false⟩ = (⟨false, true⟩, []) :=
  ⟨(unsubscribed_request_spec ⟨fun _ => none, fun _ => none, true, true⟩ 4
      1 true 2 [] ⟨false, false⟩ rfl).1,
   (unsubscribed_request_spec ⟨fun _ => none, fun _ => none, true, true⟩ 4
      1 true 2 [] ⟨false, false⟩ rfl).2⟩

/-- C10: positioning the store cursor from a time offset clamps at the
epoch: an offset at least the current time gives time 0, a smaller offset
gives exactly now minus the offset. -/
theorem up7_setCursorFromTimeOffset_spec (offset now : Nat) :
    (now ≤ offset → up7_setCursorFromTimeOffset offset now = 0) ∧
    (offset < now → up7_setCursorFromTimeOffset offset now = now - offset) := by
  constructor <;> intro h <;> simp [up7_setCursorFromTimeOffset] <;> omega

/-- Witness for C10: concrete offsets on both sides of now. -/
theorem up7_setCursorFromTimeOffset_spec_witness :
    up7_setCursorFromTimeOffset 5 3 = 0 ∧
    up7_setCursorFromTimeOffset 2 10 = 8 :=
  ⟨(up7_setCursorFromTimeOffset_spec 5 3).1 (by decide),
   (up7_setCursorFromTimeOffset_spec 2 10).2 (by decide)⟩

end LDM
